import Mathlib

/-!
Verification of `creatUINO.py` (an SD-card preparation script for TonUINO
boxes) against its natural-language specification.

The script is embedded shallowly: the filesystem is an explicit value, side
effects become an explicit trace of `Effect`s, `sys.exit` becomes an
explicit exit code, and each Python function of interest becomes a pure
Lean function over those.
-/

namespace CreatUINO

/-- Outcome of running a piece of Python code that may call `sys.exit`
(or die from an uncaught exception): either an exit code or a value. -/
inductive PyResult (α : Type) where
  | exit (code : Nat)
  | ok (val : α)
deriving DecidableEq, Repr

/-- One observable side effect of the program.  The embedded code is pure;
every interaction with the outside world is recorded in a trace. -/
inductive Effect where
  /-- Python `log.error(msg)`. -/
  | logError (msg : String)
  /-- reading one line of a file (the script never actually does this) -/
  | readLine (path : String) (lineno : Nat)
  /-- Python `pathlib.Path(p).mkdir(...)` succeeding. -/
  | mkdir (path : String)
  /-- writing a file at `path` -/
  | writeFile (path : String)
  /-- spawning an external subprocess (e.g. an ffmpeg encode job) -/
  | spawn (cmd : String)
deriving DecidableEq, Repr

/-- True for effects that modify the filesystem. -/
def Effect.isWrite : Effect → Bool
  | .mkdir _ => true
  | .writeFile _ => true
  | _ => false

/-- True for effects that read file contents. -/
def Effect.isRead : Effect → Bool
  | .readLine _ _ => true
  | _ => false

/-- Model of the filesystem visible to the script: regular files with their
text contents (as lines), directories, and the set of paths at which
`mkdir` would raise (unwritable locations). -/
structure FS where
  files : List (String × List String)
  dirs : List String
  unwritable : List String
deriving DecidableEq, Repr

/-- Whether `p` names a regular file. -/
def FS.isFile (fs : FS) (p : String) : Bool :=
  fs.files.any (fun f => f.1 == p)

/-- Whether `p` names a directory. -/
def FS.isDir (fs : FS) (p : String) : Bool :=
  fs.dirs.contains p

/-- Embedding of Python `pathlib.Path(p).exists()`. -/
def FS.pathExists (fs : FS) (p : String) : Bool :=
  fs.isFile p || fs.isDir p

/-- Whether `Path(p).mkdir(parents=True, exist_ok=True)` succeeds: an
already-existing directory is never an error (`exist_ok`), otherwise the
location must be writable. -/
def FS.mkdirOk (fs : FS) (p : String) : Bool :=
  fs.dirs.contains p || !(fs.unwritable.contains p)

/-- State after a successful `mkdir(parents=True, exist_ok=True)`. -/
def FS.mkdir (fs : FS) (p : String) : FS :=
  { fs with dirs := if fs.dirs.contains p then fs.dirs else p :: fs.dirs }

/-- The lines of the regular file at `p` (empty if absent). -/
def FS.linesOf (fs : FS) (p : String) : List String :=
  match fs.files.find? (fun f => f.1 == p) with
  | some f => f.2
  | none => []

/-- Embedding of `SDCardWriter._load_mapfile` (src/creatUINO.py:250-275).
The Python body checks `mapfile.exists()`; if the file is missing it logs
`"Map file {} does not exist"` and calls `sys.exit(1)`.  Otherwise it
returns the literal empty list without ever opening the file (the parsing
body is absent from the source).  Result: effect trace plus either an exit
code or the returned list of (source, target) 2-tuples. -/
def load_mapfile (fs : FS) (filename : String) :
    List Effect × PyResult (List (String × String)) :=
  if fs.pathExists filename then
    ([], .ok [])
  else
    ([.logError ("Map file " ++ filename ++ " does not exist")], .exit 1)

/-- Configuration values the argument/config loader hands to the script
(src/creatUINO.py:221-229 plus the `argparse` defaults). -/
structure Config where
  recode : Bool := false
  overwrite : Bool := false
  ffmpeg_bin : Option String := none
  ffmpeg_options : String := "-vsync 0 -codec:a libmp3lame -b:a 192K -vn -sn -dn"
  jobs_max : Nat := 4
  mapfile : String := "map.csv"
  output_dir : String := "./out"
deriving DecidableEq, Repr

/-- One resolved unit of work, as documented by `_load_mapfile`'s
docstring: first tuple element the source file, second the target file. -/
structure Job where
  source_path : String
  dest_path : String
deriving DecidableEq, Repr

/-- Status of one executed Job. -/
inductive Status where
  | done
  | skipped
  | failed
deriving DecidableEq, Repr

/-- Result of executing one Job. -/
structure JobOutcome where
  status : Status
  job : Job
  detail : String
deriving DecidableEq, Repr

/-- The 2-tuples returned by `_load_mapfile` reread as Jobs. -/
def jobsOfTuples (ts : List (String × String)) : List Job :=
  ts.map fun t => { source_path := t.1, dest_path := t.2 }

/-- Embedding of the tail of `SDCardWriter.argparser` after command line
parsing (src/creatUINO.py:227-245): load the map file, log an error (but
continue) when it yields no files, then create the output directory with
`parents=True, exist_ok=True`.  An unwritable output location makes the
uncaught `mkdir` exception kill the interpreter with exit status 1.
Returns the possibly-updated filesystem, the effect trace, and either an
exit code or the loaded `files_to_encode` list. -/
def argparser (fs : FS) (cfg : Config) :
    FS × List Effect × PyResult (List (String × String)) :=
  match load_mapfile fs cfg.mapfile with
  | (eff, .exit c) => (fs, eff, .exit c)
  | (eff, .ok files) =>
    let eff := if files.length == 0 then eff ++ [.logError "No files to encode."] else eff
    if fs.mkdirOk cfg.output_dir then
      (fs.mkdir cfg.output_dir, eff ++ [.mkdir cfg.output_dir], .ok files)
    else
      (fs, eff, .exit 1)

/-- Embedding of `SDCardWriter.main` (src/creatUINO.py:317-328): every
statement in its body is commented out except `pass`, so it changes
nothing, performs no effect, and executes no Job. -/
def mainStep (fs : FS) : FS × List Effect × List JobOutcome :=
  (fs, [], [])

/-- Everything one invocation of the script produces. -/
structure RunResult where
  fs : FS
  effects : List Effect
  outcomes : List JobOutcome
  exitCode : Nat
deriving DecidableEq, Repr

/-- Embedding of one full invocation (src/creatUINO.py:331-332 →
`SDCardWriter.__init__` → `argparser` → `main`): run the argument/setup
phase, then `main`, then fall off the end of the script (exit status 0). -/
def run (fs : FS) (cfg : Config) : RunResult :=
  match argparser fs cfg with
  | (fs', eff, .exit c) => { fs := fs', effects := eff, outcomes := [], exitCode := c }
  | (fs', eff, .ok _files) =>
    let (fs'', eff', outs) := mainStep fs'
    { fs := fs'', effects := eff ++ eff', outcomes := outs, exitCode := 0 }

/-- The Jobs an invocation resolves from the map file (the
`files_to_encode` list of src/creatUINO.py:229 read as Jobs); empty when
the script exits during setup. -/
def jobsProduced (fs : FS) (cfg : Config) : List Job :=
  match argparser fs cfg with
  | (_, _, .ok files) => jobsOfTuples files
  | (_, _, .exit _) => []

/-- Number of `failed` outcomes of a run. -/
def failedCount (outs : List JobOutcome) : Nat :=
  outs.countP (fun o => o.status == .failed)

/-!  ## Spec-side definitions

The following definitions follow the specification's words, not the
source; they exist only to compare the specified Map Parser / Entry
Resolver behaviour with what the source computes. -/

/-- Split a list of characters at every occurrence of `c` (spec side:
"split on the single delimiter `;`"). -/
def splitAtChar (c : Char) : List Char → List (List Char)
  | [] => [[]]
  | x :: xs =>
    match splitAtChar c xs with
    | [] => if x == c then [[], [x]] else [[x]]
    | y :: ys => if x == c then [] :: y :: ys else (x :: y) :: ys

/-- Spec-side Map Parser: each non-empty line not starting with `#` is
split on `;` into exactly two fields, first = output name, second = input
path; blank lines and `#` lines are skipped.  (Lines whose field count is
not two are dropped here; the spec makes them a parse error, which this
comparison function does not need to model.) -/
def specParseLines (lines : List String) : List (String × String) :=
  (lines.filter fun l => !(l.data = [] || l.data.head? = some '#')).filterMap fun l =>
    match (splitAtChar ';' l.data).map (fun cs => String.mk cs) with
    | [a, b] => some (a, b)
    | _ => none

/-- Spec-side MapEntry view: output name first, as the spec's Map Parser
produces it (the source docstring instead promises (source, target)). -/
def specEntries (lines : List String) : List (String × String) :=
  specParseLines lines

/-- Insert `s` into an already sorted list of names (spec side). -/
def insertByName (s : String) : List String → List String
  | [] => [s]
  | x :: xs => if s.data < x.data then s :: x :: xs else x :: insertByName s xs

/-- Stable insertion sort by name (spec side: "sorted by a stable,
deterministic ordering (lexicographic by name)"). -/
def sortByName : List String → List String
  | [] => []
  | x :: xs => insertByName x (sortByName xs)

/-- The regular files directly inside directory `d`, sorted by name. -/
def FS.filesInDir (fs : FS) (d : String) : List String :=
  sortByName ((fs.files.map (fun f => f.1)).filter fun p =>
    (d.data ++ ['/']).isPrefixOf p.data)

/-- Spec-side job count: "the number of Jobs produced equals the sum of
(1 per file entry) + (1 per matching file in each directory entry)". -/
def specJobCount (fs : FS) (entries : List (String × String)) : Nat :=
  (entries.map fun e =>
    if fs.isFile e.2 then 1
    else if fs.isDir e.2 then (fs.filesInDir e.2).length
    else 0).sum

/-!  ## Concrete filesystems used as test inputs -/

/-- A filesystem whose map file holds a comment line, a blank line and one
well-formed single-file entry. -/
def fsOneEntry : FS :=
  { files := [("map.csv", ["# comment", "", "track1.mp3;a.wav"]), ("a.wav", ["data"])],
    dirs := [], unwritable := [] }

/-- A filesystem whose map file holds one single-file entry and one
directory entry whose directory contains two regular files. -/
def fsFileAndDir : FS :=
  { files := [("map.csv", ["track1.mp3;a.wav", "track2.mp3;d"]),
              ("a.wav", ["data"]), ("d/b.wav", ["data"]), ("d/c.wav", ["data"])],
    dirs := ["d"], unwritable := [] }

/-- A filesystem whose map file holds a line with only one field (no `;`
delimiter at all). -/
def fsMalformed : FS :=
  { files := [("map.csv", ["malformed line without delimiter"])],
    dirs := [], unwritable := [] }

/-- An empty filesystem: no map file exists anywhere. -/
def fsEmpty : FS := { files := [], dirs := [], unwritable := [] }

/-- A filesystem where the map file exists and the output directory
`./out` already exists but sits at an unwritable location: `mkdir` with
`exist_ok=True` still succeeds on it. -/
def fsOutDirExists : FS :=
  { files := [("map.csv", ["track1.mp3;a.wav"])],
    dirs := ["./out"], unwritable := ["./out"] }

/-!  ## Helper lemmas -/

/-- Full characterization of one invocation: the script exits 1 when the
map file is missing or the output root is unwritable, and otherwise logs
"No files to encode.", creates the output directory and exits 0, running
no Job in any case. -/
theorem run_eq (fs : FS) (cfg : Config) :
    run fs cfg =
      if fs.pathExists cfg.mapfile then
        if fs.mkdirOk cfg.output_dir then
          { fs := fs.mkdir cfg.output_dir,
            effects := [.logError "No files to encode.", .mkdir cfg.output_dir],
            outcomes := [], exitCode := 0 }
        else
          { fs := fs, effects := [.logError "No files to encode."],
            outcomes := [], exitCode := 1 }
      else
        { fs := fs,
          effects := [.logError ("Map file " ++ cfg.mapfile ++ " does not exist")],
          outcomes := [], exitCode := 1 } := by
  by_cases h1 : fs.pathExists cfg.mapfile <;>
    by_cases h2 : fs.mkdirOk cfg.output_dir <;>
      simp [run, argparser, load_mapfile, mainStep, h1, h2]

/-- The `files_to_encode` list is empty on every input, so no Jobs are
ever produced. -/
theorem jobsProduced_eq_nil (fs : FS) (cfg : Config) :
    jobsProduced fs cfg = [] := by
  by_cases h1 : fs.pathExists cfg.mapfile <;>
    by_cases h2 : fs.mkdirOk cfg.output_dir <;>
      simp [jobsProduced, argparser, load_mapfile, jobsOfTuples, h1, h2]

/-!  ## Claim theorems -/

/-- Claim C1, evaluated on the code: on a map file containing a comment
line, a blank line and one well-formed `output;input` entry, the source's
`_load_mapfile` returns the empty list (reading nothing), whereas the
specified Map Parser would produce the single MapEntry
`("track1.mp3", "a.wav")`.  The claim fails on the code. -/
theorem c1_parser_ignores_content :
    load_mapfile fsOneEntry "map.csv" = ([], .ok []) ∧
    specParseLines (fsOneEntry.linesOf "map.csv") = [("track1.mp3", "a.wav")] ∧
    jobsProduced fsOneEntry {} = [] ∧
    ([] : List (String × String)) ≠ [("track1.mp3", "a.wav")] := by
  decide

/-- Claim C2: when the map file does not exist, the run logs the
map-file-not-found error, reads no line of any file, produces no Jobs and
exits with status 1. -/
theorem c2_missing_mapfile_fails (fs : FS) (cfg : Config)
    (h : fs.pathExists cfg.mapfile = false) :
    run fs cfg =
      { fs := fs,
        effects := [.logError ("Map file " ++ cfg.mapfile ++ " does not exist")],
        outcomes := [], exitCode := 1 } ∧
    ((run fs cfg).effects.all fun e => !e.isRead) = true ∧
    jobsProduced fs cfg = [] := by
  refine ⟨?_, ?_, jobsProduced_eq_nil fs cfg⟩ <;> rw [run_eq] <;> simp [h, Effect.isRead]

/-- Witness for C2 at a concrete input: the empty filesystem with the
default configuration. -/
theorem c2_missing_mapfile_fails_witness :
    fsEmpty.pathExists ({} : Config).mapfile = false ∧
    (run fsEmpty {} =
      { fs := fsEmpty,
        effects := [.logError ("Map file " ++ ({} : Config).mapfile ++ " does not exist")],
        outcomes := [], exitCode := 1 } ∧
     ((run fsEmpty {}).effects.all fun e => !e.isRead) = true ∧
     jobsProduced fsEmpty {} = []) :=
  ⟨by decide, c2_missing_mapfile_fails fsEmpty {} (by decide)⟩

/-- Claim C3, evaluated on the code: a run on an existing but malformed
map file — its only line splits on `;` into one field instead of the two
the format requires, so it is a bad map file — still exits with status 0,
although the claim requires any run with a bad map file to exit
non-zero.  The claim fails on the code. -/
theorem c3_bad_mapfile_still_exits_zero :
    fsMalformed.linesOf "map.csv" = ["malformed line without delimiter"] ∧
    (splitAtChar ';' "malformed line without delimiter".data).length = 1 ∧
    fsMalformed.pathExists "map.csv" = true ∧
    (run fsMalformed {}).exitCode = 0 := by
  decide

/-- Claim C4: when parsing fails (the map file is missing — the only
planning-time failure the code can produce), the run stops with the
filesystem unchanged, having performed no write effect, and exits
non-zero. -/
theorem c4_parse_error_no_side_effect (fs : FS) (cfg : Config)
    (h : fs.pathExists cfg.mapfile = false) :
    (run fs cfg).fs = fs ∧
    ((run fs cfg).effects.all fun e => !e.isWrite) = true ∧
    (run fs cfg).exitCode ≠ 0 := by
  rw [run_eq]
  simp [h, Effect.isWrite]

/-- Witness for C4 at a concrete input: the empty filesystem with the
default configuration. -/
theorem c4_parse_error_no_side_effect_witness :
    fsEmpty.pathExists ({} : Config).mapfile = false ∧
    ((run fsEmpty {}).fs = fsEmpty ∧
     ((run fsEmpty {}).effects.all fun e => !e.isWrite) = true ∧
     (run fsEmpty {}).exitCode ≠ 0) :=
  ⟨by decide, c4_parse_error_no_side_effect fsEmpty {} (by decide)⟩

/-- Claim C5, evaluated on the code: on a valid map file with one
single-file entry and one directory entry matching two files, the spec
requires 1 + 2 = 3 Jobs, but the code produces 0 Jobs.  The claim fails
on the code. -/
theorem c5_job_count_mismatch :
    (jobsProduced fsFileAndDir {}).length = 0 ∧
    specJobCount fsFileAndDir (specParseLines (fsFileAndDir.linesOf "map.csv")) = 3 ∧
    (0 : Nat) ≠ 3 := by
  decide

/-- Claim C6: `dest_path` values are pairwise distinct across every job
queue the code produces (trivially: the queue is always empty, so no
collision can ever arise and the `DuplicateDestination` branch is
vacuous). -/
theorem c6_dest_paths_unique (fs : FS) (cfg : Config) :
    (jobsProduced fs cfg).Pairwise (fun a b => a.dest_path ≠ b.dest_path) := by
  rw [jobsProduced_eq_nil]
  exact List.Pairwise.nil

/-- Claim C7, evaluated on the code: on a map file whose only line has a
single field (no `;`), the source's `_load_mapfile` succeeds with the
empty list, never reads the line, and the whole run exits 0 — no
malformed-line error is ever raised.  The claim fails on the code. -/
theorem c7_malformed_line_not_rejected :
    load_mapfile fsMalformed "map.csv" = ([], .ok []) ∧
    (run fsMalformed {}).exitCode = 0 ∧
    ((run fsMalformed {}).effects.all fun e => !e.isRead) = true := by
  decide

/-- Claim C8: whenever the map file path exists, `_load_mapfile` returns
the empty list with no effect at all — no line is read and no (source,
target) tuple is produced, regardless of the file's contents. -/
theorem c8_load_mapfile_always_empty (fs : FS) (filename : String)
    (h : fs.pathExists filename = true) :
    load_mapfile fs filename = ([], .ok []) := by
  simp [load_mapfile, h]

/-- Witness for C8 at a concrete input: a map file whose contents hold a
perfectly valid entry is still loaded as the empty list. -/
theorem c8_load_mapfile_always_empty_witness :
    fsOneEntry.pathExists "map.csv" = true ∧
    load_mapfile fsOneEntry "map.csv" = ([], .ok []) :=
  ⟨by decide, c8_load_mapfile_always_empty fsOneEntry "map.csv" (by decide)⟩

/-- Claim C9: when the loaded map yields zero files to encode (which is
every run whose map file exists), the script logs the error
"No files to encode." but continues: the output directory is created and
the run exits 0. -/
theorem c9_zero_files_is_nonfatal (fs : FS) (cfg : Config)
    (h1 : fs.pathExists cfg.mapfile = true)
    (h2 : fs.mkdirOk cfg.output_dir = true) :
    (run fs cfg).exitCode = 0 ∧
    Effect.logError "No files to encode." ∈ (run fs cfg).effects ∧
    (run fs cfg).fs.dirs.contains cfg.output_dir = true := by
  rw [run_eq]
  simp only [h1, h2, if_true]
  refine ⟨by simp, by simp, ?_⟩
  simp only [FS.mkdir]
  by_cases h3 : cfg.output_dir ∈ fs.dirs <;> simp [h3]

/-- Witness for C9 at a concrete input where the output directory already
exists (and is even marked unwritable): `exist_ok=True` makes its
re-creation a success, the error is logged, and the run exits 0. -/
theorem c9_zero_files_is_nonfatal_witness :
    fsOutDirExists.pathExists ({} : Config).mapfile = true ∧
    fsOutDirExists.mkdirOk ({} : Config).output_dir = true ∧
    ((run fsOutDirExists {}).exitCode = 0 ∧
     Effect.logError "No files to encode." ∈ (run fsOutDirExists {}).effects ∧
     (run fsOutDirExists {}).fs.dirs.contains ({} : Config).output_dir = true) :=
  ⟨by decide, by decide, c9_zero_files_is_nonfatal fsOutDirExists {} (by decide) (by decide)⟩

/-- Claim C10: `main` is a no-op on every state — it changes nothing,
performs no effect (no read, no write, no subprocess) and executes no
Job. -/
theorem c10_main_is_noop (fs : FS) :
    mainStep fs = (fs, [], []) :=
  rfl

end CreatUINO
